/-
  Verification of the CineBooker cinema-booking platform.

  Shallow embedding of the client-side data access and event-handler logic:
  record collections become Lists of structures, the gateway's `list` with an
  equality `where` filter becomes `List.filter`, `create` appends, and
  `update(id, patch)` maps a patch over the records with a matching id.
  Timestamps are passed in explicitly (`now`), JSON seat lists are modelled
  as `List String` (already parsed).
-/
import Mathlib

set_option linter.unusedVariables false

/-! ## Data model (from the TypeScript interfaces) -/

/-- Booking record, from the `bookings` collection as created in
`SeatSelection.tsx` and consumed in `CheckInInterface`.  `seats` holds the
parsed JSON seat-id list; `checked_in` is the boolean flag (the source reads
it back via `Number(booking.checked_in) > 0`). -/
structure Booking where
  id : String
  user_id : String
  showtime_id : String
  seats : List String
  total_amount : Nat
  booking_status : String
  payment_status : String
  qr_code : String
  checked_in : Bool
  check_in_time : Option String
deriving Repr, DecidableEq

/-- Showtime record (interface `Showtime` in `SeatSelection.tsx`). -/
structure Showtime where
  id : String
  movie_id : String
  screen_id : String
  theater_id : String
  show_date : String
  show_time : String
  price_regular : Nat
  price_gold : Nat
  price_platinum : Nat
  available_seats : Nat
  total_seats : Nat
deriving Repr, DecidableEq

/-- Parsed seat-layout descriptor (interface `SeatLayout`). -/
structure SeatLayout where
  rows : Nat
  seatsPerRow : Nat
  premium : List Nat
  gold : List Nat
  regular : List Nat
deriving Repr, DecidableEq

/-- Movie record as used by the catalog browser (`HomePage.tsx`). -/
structure Movie where
  id : String
  title : String
  language : String
  genre : String
  status : String
deriving Repr, DecidableEq

/-- Theater record (`PlatformDashboard.tsx` / `HomePage.tsx`). -/
structure Theater where
  id : String
  name : String
  location : String
  city : String
  status : String
deriving Repr, DecidableEq

/-- Application user record (interface `User` in `App.tsx`). -/
structure AppUser where
  id : String
  email : String
  name : String
  role : String
deriving Repr, DecidableEq

/-- Identity-provider principal snapshot (`blink.auth.me()`); an absent
display name is modelled as the empty string, matching JS falsiness. -/
structure AuthUser where
  id : String
  email : String
  displayName : String
deriving Repr, DecidableEq

/-! ## C1: occupied seats (`fetchOccupiedSeats` in `SeatSelection.tsx`) -/

/-- `fetchOccupiedSeats`: list bookings with
`where: { showtime_id: showtimeId, booking_status: 'confirmed' }` and
concatenate their seat lists (the source pushes `...seats` per booking). -/
def fetchOccupiedSeats (bookings : List Booking) (showtimeId : String) : List String :=
  ((bookings.filter
      (fun b => b.showtime_id == showtimeId && b.booking_status == "confirmed")).map
    (fun b => b.seats)).flatten

/-- C1: for every showtime, the occupied-seat set computed by
`fetchOccupiedSeats` is exactly the union of the seat lists of that
showtime's bookings whose status is `confirmed`; bookings with any other
status (cancelled, refunded, ...) contribute nothing. -/
theorem occupied_seats_are_confirmed_union
    (bookings : List Booking) (showtimeId : String) (seat : String) :
    seat ∈ fetchOccupiedSeats bookings showtimeId ↔
      ∃ b ∈ bookings, b.showtime_id = showtimeId ∧
        b.booking_status = "confirmed" ∧ seat ∈ b.seats := by
  unfold fetchOccupiedSeats
  simp only [List.mem_flatten, List.mem_map, List.mem_filter, Bool.and_eq_true,
    beq_iff_eq]
  constructor
  · rintro ⟨l, ⟨b, ⟨hb, hshow, hstat⟩, rfl⟩, hseat⟩
    exact ⟨b, hb, hshow, hstat, hseat⟩
  · rintro ⟨b, hb, hshow, hstat, hseat⟩
    exact ⟨b.seats, ⟨b, ⟨hb, hshow, hstat⟩, rfl⟩, hseat⟩

/-! ## Seat classes and pricing (`getSeatType`, `getSeatPrice`, `calculateTotal`) -/

/-- Seat pricing class. -/
inductive SeatType where
  | premium
  | gold
  | regular
deriving Repr, DecidableEq

/-- `getSeatType`: `seatLayout.premium.includes(row)` wins over
`seatLayout.gold.includes(row)`, default `regular`.  (The source's
`!seatLayout` null guard cannot fire on the rendered page, which bails out
when the layout is absent, so the layout is a plain argument here.) -/
def getSeatType (layout : SeatLayout) (row : Nat) : SeatType :=
  if row ∈ layout.premium then SeatType.premium
  else if row ∈ layout.gold then SeatType.gold
  else SeatType.regular

/-- `getSeatPrice`: premium seats are billed at the showtime's
`price_platinum` field, gold at `price_gold`, regular at `price_regular`. -/
def getSeatPrice (showtime : Showtime) : SeatType → Nat
  | SeatType.premium => showtime.price_platinum
  | SeatType.gold => showtime.price_gold
  | SeatType.regular => showtime.price_regular

/-- Decimal value of a digit string, `Number`-style: the empty string reads
as 0 (as `Number("")` does in JS). -/
def digitsVal (cs : List Char) : Nat :=
  cs.foldl (fun n c => n * 10 + (c.toNat - 48)) 0

/-- Row number of a seat id: the source does
`const [row] = seatId.split('-').map(Number)`.  Seat ids are built as
`row-seat` by the seat grid, so the first split piece is the characters
before the first `-`, converted from decimal. -/
def seatRow (seatId : String) : Nat :=
  digitsVal (seatId.data.takeWhile (fun c => c != '-'))

/-- `calculateTotal`: fold over `selectedSeats`, adding each seat's resolved
class price to a running total starting at 0. -/
def calculateTotal (layout : SeatLayout) (showtime : Showtime)
    (selectedSeats : List String) : Nat :=
  selectedSeats.foldl
    (fun total seatId => total + getSeatPrice showtime (getSeatType layout (seatRow seatId)))
    0

/-- Folding `+ f seat` over a list starting from `acc` is `acc` plus the sum
of the per-seat prices. -/
theorem foldl_price_eq_sum (f : String → Nat) :
    ∀ (l : List String) (acc : Nat),
      l.foldl (fun total s => total + f s) acc = acc + (l.map f).sum := by
  intro l
  induction l with
  | nil => intro acc; simp
  | cons hd tl ih =>
      intro acc
      simp [List.foldl_cons, ih, Nat.add_assoc]

/-- C5: the booking total is the sum over the selected seats of the price of
each seat's resolved class; the class of row `r` is `premium` when `r` is in
the layout's premium list, else `gold` when in the gold list, else
`regular`; and each class reads the showtime's corresponding price field
(premium is billed from `price_platinum`). -/
theorem booking_total_is_classwise_sum
    (layout : SeatLayout) (showtime : Showtime) (selectedSeats : List String)
    (r : Nat) :
    calculateTotal layout showtime selectedSeats =
      (selectedSeats.map
        (fun seatId => getSeatPrice showtime (getSeatType layout (seatRow seatId)))).sum
    ∧ (r ∈ layout.premium → getSeatType layout r = SeatType.premium)
    ∧ (r ∉ layout.premium → r ∈ layout.gold → getSeatType layout r = SeatType.gold)
    ∧ (r ∉ layout.premium → r ∉ layout.gold → getSeatType layout r = SeatType.regular)
    ∧ getSeatPrice showtime SeatType.premium = showtime.price_platinum
    ∧ getSeatPrice showtime SeatType.gold = showtime.price_gold
    ∧ getSeatPrice showtime SeatType.regular = showtime.price_regular := by
  refine ⟨?_, ?_, ?_, ?_, rfl, rfl, rfl⟩
  · unfold calculateTotal
    rw [foldl_price_eq_sum]
    simp
  · intro h; simp [getSeatType, h]
  · intro h1 h2; simp [getSeatType, h1, h2]
  · intro h1 h2; simp [getSeatType, h1, h2]

/-- Sample layout: 8 rows, rows 1–2 premium, rows 3–5 gold, rest regular. -/
def sampleLayout : SeatLayout :=
  { rows := 8, seatsPerRow := 10, premium := [1, 2], gold := [3, 4, 5],
    regular := [6, 7, 8] }

/-- Sample showtime with distinct class prices. -/
def sampleShowtime : Showtime :=
  { id := "st1", movie_id := "m1", screen_id := "sc1", theater_id := "t1",
    show_date := "2024-06-01", show_time := "18:30", price_regular := 150,
    price_gold := 250, price_platinum := 400, available_seats := 80,
    total_seats := 80 }

/-- Witness for C5 at a concrete layout, showtime, selection and row:
a premium, a gold and a regular seat priced 400 + 250 + 150. -/
theorem booking_total_is_classwise_sum_witness :
    calculateTotal sampleLayout sampleShowtime ["1-3", "4-2", "7-9"] =
      ([ "1-3", "4-2", "7-9" ].map
        (fun seatId =>
          getSeatPrice sampleShowtime (getSeatType sampleLayout (seatRow seatId)))).sum
    ∧ (4 : Nat) ∉ sampleLayout.premium ∧ (4 : Nat) ∈ sampleLayout.gold
    ∧ getSeatType sampleLayout 4 = SeatType.gold
    ∧ calculateTotal sampleLayout sampleShowtime ["1-3", "4-2", "7-9"] = 800 := by
  have h := booking_total_is_classwise_sum sampleLayout sampleShowtime
    ["1-3", "4-2", "7-9"] 4
  exact ⟨h.1, by decide, by decide, h.2.2.1 (by decide) (by decide), by decide⟩

/-! ## Seat clicking (`handleSeatClick`) and the booking writer
(`handleProceedToPayment`) -/

/-- `handleSeatClick`: occupied seats are inert; a selected seat is
deselected via `filter(id => id !== seatId)`; otherwise the seat is appended
when fewer than 10 are selected, else the click is rejected (toast) and the
selection is unchanged. -/
def handleSeatClick (occupiedSeats selectedSeats : List String)
    (seatId : String) : List String :=
  if seatId ∈ occupiedSeats then selectedSeats
  else if seatId ∈ selectedSeats then
    selectedSeats.filter (fun s => s != seatId)
  else if selectedSeats.length < 10 then selectedSeats ++ [seatId]
  else selectedSeats

/-- Selection state reached from the initial empty selection by a sequence
of seat clicks (the occupied set is loaded once and fixed). -/
def clickAll (occupiedSeats : List String) (clicks : List String) : List String :=
  clicks.foldl (handleSeatClick occupiedSeats) []

/-- The booking record built by `handleProceedToPayment`: id
`booking_${Date.now()}`, check-in code `QR_${Date.now()}_${user.id}`,
status `confirmed`, payment `pending`, not checked in. -/
def newBooking (now : Nat) (userId showtimeId : String) (layout : SeatLayout)
    (showtime : Showtime) (selectedSeats : List String) : Booking :=
  { id := "booking_" ++ toString now
    user_id := userId
    showtime_id := showtimeId
    seats := selectedSeats
    total_amount := calculateTotal layout showtime selectedSeats
    booking_status := "confirmed"
    payment_status := "pending"
    qr_code := "QR_" ++ toString now ++ "_" ++ userId
    checked_in := false
    check_in_time := none }

/-- `handleProceedToPayment`: with no seats selected, surface an error and
create nothing (`(db, none)`); otherwise create exactly one booking record
and navigate to `/booking/{booking.id}`. -/
def handleProceedToPayment (db : List Booking) (now : Nat)
    (userId showtimeId : String) (layout : SeatLayout) (showtime : Showtime)
    (selectedSeats : List String) : List Booking × Option (Booking × String) :=
  if selectedSeats.length = 0 then (db, none)
  else
    (db ++ [newBooking now userId showtimeId layout showtime selectedSeats],
     some (newBooking now userId showtimeId layout showtime selectedSeats,
       "/booking/" ++ (newBooking now userId showtimeId layout showtime selectedSeats).id))

/-- One click preserves the selection invariant: no duplicates, no occupied
seat, at most 10 seats. -/
theorem handleSeatClick_invariant (occ sel : List String) (seatId : String)
    (hnd : sel.Nodup) (hocc : ∀ s ∈ sel, s ∉ occ) (hlen : sel.length ≤ 10) :
    (handleSeatClick occ sel seatId).Nodup
    ∧ (∀ s ∈ handleSeatClick occ sel seatId, s ∉ occ)
    ∧ (handleSeatClick occ sel seatId).length ≤ 10 := by
  unfold handleSeatClick
  split
  · exact ⟨hnd, hocc, hlen⟩
  · split
    · refine ⟨hnd.filter _, ?_, ?_⟩
      · intro s hs
        exact hocc s (List.mem_of_mem_filter hs)
      · exact le_trans (List.length_filter_le _ _) hlen
    · split
      · rename_i hnotocc hnotsel hlt
        refine ⟨?_, ?_, ?_⟩
        · rw [List.nodup_append]
          exact ⟨hnd, List.nodup_singleton _, by
            intro s hs hmem
            rw [List.mem_singleton] at hmem
            exact hnotsel (hmem ▸ hs)⟩
        · intro s hs
          rcases List.mem_append.mp hs with h | h
          · exact hocc s h
          · rw [List.mem_singleton] at h
            exact h ▸ hnotocc
        · rw [List.length_append, List.length_singleton]
          omega
      · exact ⟨hnd, hocc, hlen⟩

/-- Every selection reachable by clicking satisfies the invariant. -/
theorem clickAll_invariant (occ clicks : List String) :
    (clickAll occ clicks).Nodup
    ∧ (∀ s ∈ clickAll occ clicks, s ∉ occ)
    ∧ (clickAll occ clicks).length ≤ 10 := by
  suffices h : ∀ (cs sel : List String), sel.Nodup → (∀ s ∈ sel, s ∉ occ) →
      sel.length ≤ 10 →
      (cs.foldl (handleSeatClick occ) sel).Nodup
      ∧ (∀ s ∈ cs.foldl (handleSeatClick occ) sel, s ∉ occ)
      ∧ (cs.foldl (handleSeatClick occ) sel).length ≤ 10 by
    exact h clicks [] List.nodup_nil (by intro s hs; cases hs) (by simp)
  intro cs
  induction cs with
  | nil => intro sel h1 h2 h3; exact ⟨h1, h2, h3⟩
  | cons c rest ih =>
      intro sel h1 h2 h3
      obtain ⟨g1, g2, g3⟩ := handleSeatClick_invariant occ sel c h1 h2 h3
      exact ih (handleSeatClick occ sel c) g1 g2 g3

/-- On a duplicate-free list, `filter (· != a)` is `erase a`. -/
theorem filter_ne_eq_erase (a : String) :
    ∀ (l : List String), l.Nodup → l.filter (fun s => s != a) = l.erase a := by
  intro l
  induction l with
  | nil => intro _; rfl
  | cons hd tl ih =>
      intro hnd
      by_cases h : hd = a
      · subst h
        rw [List.erase_cons_head]
        simp only [List.filter_cons, bne_self_eq_false]
        exact List.filter_eq_self.mpr (by
          intro s hs
          simp only [bne_iff_ne, ne_eq]
          intro heq
          exact (List.nodup_cons.mp hnd).1 (heq ▸ hs))
      · rw [List.erase_cons_tail (by simpa using h)]
        have hb : (hd != a) = true := by simpa using h
        simp only [List.filter_cons, hb, if_true]
        rw [ih (List.nodup_cons.mp hnd).2]

/-- C10: in every reachable seat-selection state, clicking an occupied seat
leaves the selection unchanged; clicking a selected seat removes exactly
that seat; clicking a fresh unoccupied seat with fewer than 10 selected
appends it once; and the selection never contains an occupied seat nor a
duplicate. -/
theorem seat_click_behavior (occ clicks : List String) (seatId : String) :
    (clickAll occ clicks).Nodup
    ∧ (∀ s ∈ clickAll occ clicks, s ∉ occ)
    ∧ (seatId ∈ occ →
        handleSeatClick occ (clickAll occ clicks) seatId = clickAll occ clicks)
    ∧ (seatId ∈ clickAll occ clicks →
        handleSeatClick occ (clickAll occ clicks) seatId =
          (clickAll occ clicks).erase seatId)
    ∧ (seatId ∉ occ → seatId ∉ clickAll occ clicks →
        (clickAll occ clicks).length < 10 →
        handleSeatClick occ (clickAll occ clicks) seatId =
          clickAll occ clicks ++ [seatId]) := by
  obtain ⟨hnd, hocc, hlen⟩ := clickAll_invariant occ clicks
  refine ⟨hnd, hocc, ?_, ?_, ?_⟩
  · intro h
    unfold handleSeatClick
    rw [if_pos h]
  · intro h
    unfold handleSeatClick
    rw [if_neg (hocc seatId h), if_pos h]
    exact filter_ne_eq_erase seatId _ hnd
  · intro h1 h2 h3
    unfold handleSeatClick
    rw [if_neg h1, if_neg h2, if_pos h3]

/-- Witness for C10 on a concrete occupancy and click history: occupied
seat `1-1` is inert, clicking selected `2-2` removes it, clicking fresh
`3-3` appends it. -/
theorem seat_click_behavior_witness :
    clickAll ["1-1"] ["1-1", "2-2", "2-3"] = ["2-2", "2-3"]
    ∧ handleSeatClick ["1-1"] (clickAll ["1-1"] ["1-1", "2-2", "2-3"]) "1-1" =
        clickAll ["1-1"] ["1-1", "2-2", "2-3"]
    ∧ handleSeatClick ["1-1"] (clickAll ["1-1"] ["1-1", "2-2", "2-3"]) "2-2" =
        (clickAll ["1-1"] ["1-1", "2-2", "2-3"]).erase "2-2"
    ∧ handleSeatClick ["1-1"] (clickAll ["1-1"] ["1-1", "2-2", "2-3"]) "3-3" =
        clickAll ["1-1"] ["1-1", "2-2", "2-3"] ++ ["3-3"] := by
  have h := seat_click_behavior ["1-1"] ["1-1", "2-2", "2-3"] "1-1"
  have h2 := seat_click_behavior ["1-1"] ["1-1", "2-2", "2-3"] "2-2"
  have h3 := seat_click_behavior ["1-1"] ["1-1", "2-2", "2-3"] "3-3"
  exact ⟨by decide, h.2.2.1 (by decide), h2.2.2.2.1 (by decide),
    h3.2.2.2.2 (by decide) (by decide) (by decide)⟩

/-- C6: a reachable selection never exceeds 10 seats; submitting with zero
seats is blocked (no record created, error result `none`); and any booking
created from a reachable selection has between 1 and 10 seats. -/
theorem booking_seat_count_bounds (occ clicks : List String)
    (db : List Booking) (now : Nat) (userId showtimeId : String)
    (layout : SeatLayout) (showtime : Showtime) :
    (clickAll occ clicks).length ≤ 10
    ∧ handleProceedToPayment db now userId showtimeId layout showtime [] =
        (db, none)
    ∧ (∀ newDb b nav,
        handleProceedToPayment db now userId showtimeId layout showtime
            (clickAll occ clicks) = (newDb, some (b, nav)) →
        1 ≤ b.seats.length ∧ b.seats.length ≤ 10) := by
  obtain ⟨-, -, hlen⟩ := clickAll_invariant occ clicks
  refine ⟨hlen, rfl, ?_⟩
  intro newDb b nav h
  unfold handleProceedToPayment at h
  by_cases hz : (clickAll occ clicks).length = 0
  · rw [if_pos hz] at h
    cases h
  · rw [if_neg hz] at h
    have hb : b = newBooking now userId showtimeId layout showtime
        (clickAll occ clicks) := by
      have h2 := congrArg Prod.snd h
      simp only [Option.some.injEq, Prod.mk.injEq] at h2
      exact h2.1.symm
    subst hb
    simp only [newBooking]
    omega

/-- Witness for C6: with ten seats already selected an eleventh click is
rejected, the empty submission is blocked, and a concrete submission yields
a booking with 2 seats. -/
theorem booking_seat_count_bounds_witness :
    (clickAll [] ["1-1", "1-2", "1-3", "1-4", "1-5", "1-6", "1-7", "1-8",
        "1-9", "1-10", "2-1"]).length ≤ 10
    ∧ handleProceedToPayment [] 42 "user1" "st1" sampleLayout sampleShowtime
        [] = ([], none)
    ∧ 1 ≤ (newBooking 42 "user1" "st1" sampleLayout sampleShowtime
        (clickAll [] ["1-1", "1-2"])).seats.length
    ∧ (newBooking 42 "user1" "st1" sampleLayout sampleShowtime
        (clickAll [] ["1-1", "1-2"])).seats.length ≤ 10 := by
  have h := booking_seat_count_bounds []
    ["1-1", "1-2", "1-3", "1-4", "1-5", "1-6", "1-7", "1-8", "1-9", "1-10",
      "2-1"] [] 42 "user1" "st1" sampleLayout sampleShowtime
  have h2 := booking_seat_count_bounds [] ["1-1", "1-2"] [] 42 "user1" "st1"
    sampleLayout sampleShowtime
  have hcreated := h2.2.2
    ([] ++ [newBooking 42 "user1" "st1" sampleLayout sampleShowtime
        (clickAll [] ["1-1", "1-2"])])
    (newBooking 42 "user1" "st1" sampleLayout sampleShowtime
        (clickAll [] ["1-1", "1-2"]))
    ("/booking/" ++ (newBooking 42 "user1" "st1" sampleLayout sampleShowtime
        (clickAll [] ["1-1", "1-2"])).id)
    (by rw [handleProceedToPayment, if_neg (by decide)])
  exact ⟨h.1, h.2.1, hcreated.1, hcreated.2⟩

/-- C2 counterexample: the booking id is derived from the timestamp alone —
two different users submitting at the same millisecond receive the *same*
booking id (`booking_77`), so the booking id is not derived from
"timestamp + user id" (only the check-in code is, and those differ). -/
theorem booking_id_ignores_user :
    ((handleProceedToPayment [] 77 "alice" "st1" sampleLayout sampleShowtime
        ["1-1"]).2.map (fun p => p.1.id)) = some "booking_77"
    ∧ ((handleProceedToPayment [] 77 "bob" "st1" sampleLayout sampleShowtime
        ["1-1"]).2.map (fun p => p.1.id)) = some "booking_77"
    ∧ ((handleProceedToPayment [] 77 "alice" "st1" sampleLayout sampleShowtime
        ["1-1"]).2.map (fun p => p.1.qr_code)) = some "QR_77_alice"
    ∧ ((handleProceedToPayment [] 77 "bob" "st1" sampleLayout sampleShowtime
        ["1-1"]).2.map (fun p => p.1.qr_code)) = some "QR_77_bob" := by
  refine ⟨?_, ?_, ?_, ?_⟩ <;> rfl

/-- C2 (amended): on a non-empty selection the Booking Writer creates
exactly one booking — appended to the store — whose id is derived from the
timestamp alone (`booking_{now}`), whose check-in code is derived from the
timestamp and user id (`QR_{now}_{userId}`), whose seats equal the
selection, whose total is the computed total, with status `confirmed`,
payment status `pending` and the checked-in flag false; it then navigates
to `/booking/{id}`. -/
theorem booking_writer_creates_record (db : List Booking) (now : Nat)
    (userId showtimeId : String) (layout : SeatLayout) (showtime : Showtime)
    (selectedSeats : List String) (hne : selectedSeats ≠ []) :
    handleProceedToPayment db now userId showtimeId layout showtime
        selectedSeats =
      (db ++ [newBooking now userId showtimeId layout showtime selectedSeats],
       some (newBooking now userId showtimeId layout showtime selectedSeats,
         "/booking/" ++
           (newBooking now userId showtimeId layout showtime selectedSeats).id))
    ∧ (newBooking now userId showtimeId layout showtime selectedSeats).id =
        "booking_" ++ toString now
    ∧ (newBooking now userId showtimeId layout showtime selectedSeats).qr_code =
        "QR_" ++ toString now ++ "_" ++ userId
    ∧ (newBooking now userId showtimeId layout showtime selectedSeats).seats =
        selectedSeats
    ∧ (newBooking now userId showtimeId layout showtime
        selectedSeats).total_amount =
        calculateTotal layout showtime selectedSeats
    ∧ (newBooking now userId showtimeId layout showtime
        selectedSeats).booking_status = "confirmed"
    ∧ (newBooking now userId showtimeId layout showtime
        selectedSeats).payment_status = "pending"
    ∧ (newBooking now userId showtimeId layout showtime
        selectedSeats).checked_in = false := by
  refine ⟨?_, rfl, rfl, rfl, rfl, rfl, rfl, rfl⟩
  unfold handleProceedToPayment
  rw [if_neg (by simpa using hne)]

/-- Witness for C2 (amended) at a concrete non-empty selection. -/
theorem booking_writer_creates_record_witness :
    handleProceedToPayment [] 42 "user1" "st1" sampleLayout sampleShowtime
        ["1-1", "3-4"] =
      ([newBooking 42 "user1" "st1" sampleLayout sampleShowtime
          ["1-1", "3-4"]],
       some (newBooking 42 "user1" "st1" sampleLayout sampleShowtime
          ["1-1", "3-4"],
         "/booking/" ++ (newBooking 42 "user1" "st1" sampleLayout
           sampleShowtime ["1-1", "3-4"]).id))
    ∧ (newBooking 42 "user1" "st1" sampleLayout sampleShowtime
        ["1-1", "3-4"]).booking_status = "confirmed"
    ∧ (newBooking 42 "user1" "st1" sampleLayout sampleShowtime
        ["1-1", "3-4"]).payment_status = "pending"
    ∧ (newBooking 42 "user1" "st1" sampleLayout sampleShowtime
        ["1-1", "3-4"]).checked_in = false := by
  have h := booking_writer_creates_record [] 42 "user1" "st1" sampleLayout
    sampleShowtime ["1-1", "3-4"] (by decide)
  exact ⟨by simpa using h.1, h.2.2.2.2.2.1, h.2.2.2.2.2.2.1,
    h.2.2.2.2.2.2.2⟩

/-! ## Check-in verifier (`handleQRScan` in `CheckInInterface`) -/

/-- The record stores the check-in console reads from. -/
structure CheckInDb where
  bookings : List Booking
  showtimes : List Showtime
  movies : List Movie
  theaters : List Theater
  users : List AppUser
deriving Repr, DecidableEq

/-- Enriched booking details shown on a successful check-in. -/
structure BookingDetails where
  id : String
  movie_title : String
  theater_name : String
  show_date : String
  show_time : String
  seats : List String
  user_name : String
deriving Repr, DecidableEq

/-- Mirror of the `CheckInResult` interface. -/
structure CheckInResult where
  success : Bool
  booking : Option BookingDetails
  message : String
deriving Repr, DecidableEq

/-- `list({ where: { qr_code }, limit: 1 })`: first booking matching the
entered code. -/
def findBookingByQr (bookings : List Booking) (code : String) : Option Booking :=
  (bookings.filter (fun b => b.qr_code == code)).head?

/-- Showtime lookup by id (`limit: 1`). -/
def lookupShowtime (showtimes : List Showtime) (sid : String) : Option Showtime :=
  (showtimes.filter (fun s => s.id == sid)).head?

/-- Movie title for the enriched result; `movies[0]?.title || 'Unknown Movie'`. -/
def movieTitleFor (movies : List Movie) (mid : String) : String :=
  match (movies.filter (fun m => m.id == mid)).head? with
  | some m => m.title
  | none => "Unknown Movie"

/-- Theater name for the enriched result; `theaters[0]?.name || 'Unknown Theater'`. -/
def theaterNameFor (theaters : List Theater) (tid : String) : String :=
  match (theaters.filter (fun t => t.id == tid)).head? with
  | some t => t.name
  | none => "Unknown Theater"

/-- User name for the enriched result; `users[0]?.name || 'Unknown User'`. -/
def userNameFor (users : List AppUser) (uid : String) : String :=
  match (users.filter (fun u => u.id == uid)).head? with
  | some u => u.name
  | none => "Unknown User"

/-- JS `String.prototype.trim`, modelled on the character list so it
evaluates inside the kernel: drop whitespace from both ends. -/
def jsTrim (s : String) : String :=
  ⟨((s.data.dropWhile Char.isWhitespace).reverse.dropWhile
      Char.isWhitespace).reverse⟩

/-- The check-in update applied to the matched booking:
`update(booking.id, { checked_in: true, check_in_time: now })`. -/
def checkInPatch (now : String) (b : Booking) : Booking :=
  { b with checked_in := true, check_in_time := some now }

/-- `handleQRScan`: empty (after trim) codes are rejected up front with no
check-in result; otherwise look the booking up by code and walk the failure
ladder — not found, already used, not confirmed, showtime missing — and on
the success path update the booking's checked-in flag and timestamp and
build the enriched result.  Returns the (possibly updated) bookings store
and the result. -/
def handleQRScan (db : CheckInDb) (qrCode : String) (now : String) :
    List Booking × Option CheckInResult :=
  if jsTrim qrCode = "" then (db.bookings, none)
  else
    match findBookingByQr db.bookings (jsTrim qrCode) with
    | none =>
        (db.bookings,
         some ⟨false, none, "Invalid QR code. Booking not found."⟩)
    | some booking =>
        if booking.checked_in then
          (db.bookings,
           some ⟨false, none, "This ticket has already been used for check-in."⟩)
        else if booking.booking_status != "confirmed" then
          (db.bookings, some ⟨false, none, "This booking is not confirmed."⟩)
        else
          match lookupShowtime db.showtimes booking.showtime_id with
          | none => (db.bookings, some ⟨false, none, "Showtime not found."⟩)
          | some showtime =>
              (db.bookings.map
                (fun b => if b.id == booking.id then checkInPatch now b else b),
               some ⟨true,
                 some ⟨booking.id, movieTitleFor db.movies showtime.movie_id,
                   theaterNameFor db.theaters showtime.theater_id,
                   showtime.show_date, showtime.show_time, booking.seats,
                   userNameFor db.users booking.user_id⟩,
                 "Check-in successful!"⟩)

/-- A fresh confirmed booking used in the check-in scenarios. -/
def freshBooking : Booking :=
  { id := "booking_100", user_id := "u1", showtime_id := "st1",
    seats := ["1-1", "1-2"], total_amount := 800,
    booking_status := "confirmed", payment_status := "pending",
    qr_code := "QR_100_u1", checked_in := false, check_in_time := none }

/-- C3 counterexample: a booking found by its code, confirmed and unused,
does *not* reach the success state when the showtime it references is
absent from the showtimes collection — the scan terminates in failure with
"Showtime not found." and no flag is set. -/
theorem checkin_success_needs_showtime :
    findBookingByQr [freshBooking] (jsTrim "QR_100_u1") = some freshBooking
    ∧ freshBooking.booking_status = "confirmed"
    ∧ freshBooking.checked_in = false
    ∧ handleQRScan ⟨[freshBooking], [], [], [], []⟩ "QR_100_u1" "2024-06-01T18:00:00Z" =
        ([freshBooking], some ⟨false, none, "Showtime not found."⟩) := by
  refine ⟨?_, rfl, rfl, ?_⟩ <;> rfl

/-- C3 (amended): a booking found by the entered code with status
`confirmed` and an unset checked-in flag is checked in successfully
*provided the showtime it references exists*: the verifier enriches the
result with movie/theater/user details (with `Unknown ...` fallbacks), sets
the checked-in flag and the check-in timestamp on the booking record, and
terminates in the success state. -/
theorem checkin_success_path (db : CheckInDb) (code now : String)
    (b : Booking) (st : Showtime)
    (hne : jsTrim code ≠ "")
    (hfind : findBookingByQr db.bookings (jsTrim code) = some b)
    (hchk : b.checked_in = false)
    (hstat : b.booking_status = "confirmed")
    (hshow : lookupShowtime db.showtimes b.showtime_id = some st) :
    handleQRScan db code now =
      (db.bookings.map
        (fun x => if x.id == b.id then checkInPatch now x else x),
       some ⟨true,
         some ⟨b.id, movieTitleFor db.movies st.movie_id,
           theaterNameFor db.theaters st.theater_id, st.show_date,
           st.show_time, b.seats, userNameFor db.users b.user_id⟩,
         "Check-in successful!"⟩)
    ∧ (checkInPatch now b).checked_in = true
    ∧ (checkInPatch now b).check_in_time = some now
    ∧ (b ∈ db.bookings → checkInPatch now b ∈ (handleQRScan db code now).1) := by
  have hmain : handleQRScan db code now =
      (db.bookings.map
        (fun x => if x.id == b.id then checkInPatch now x else x),
       some ⟨true,
         some ⟨b.id, movieTitleFor db.movies st.movie_id,
           theaterNameFor db.theaters st.theater_id, st.show_date,
           st.show_time, b.seats, userNameFor db.users b.user_id⟩,
         "Check-in successful!"⟩) := by
    unfold handleQRScan
    rw [if_neg hne, hfind]
    simp only [hchk, hstat, hshow, bne_self_eq_false, Bool.false_eq_true,
      if_false]
  refine ⟨hmain, rfl, rfl, ?_⟩
  intro hb
  rw [hmain]
  exact List.mem_map.mpr ⟨b, hb, by rw [beq_self_eq_true]; rfl⟩

/-- A showtime/movie/theater/user environment matching `freshBooking`. -/
def checkinDb : CheckInDb :=
  { bookings := [freshBooking]
    showtimes := [sampleShowtime]
    movies := [⟨"m1", "Inception", "English", "Sci-Fi", "now_showing"⟩]
    theaters := [⟨"t1", "Grand Cinema", "Main St", "Metropolis", "approved"⟩]
    users := [⟨"u1", "ada@example.com", "Ada", "customer"⟩] }

/-- Witness for C3 (amended): the concrete fresh booking checks in
successfully and its record gains the flag and timestamp. -/
theorem checkin_success_path_witness :
    handleQRScan checkinDb "QR_100_u1" "T0" =
      ([checkInPatch "T0" freshBooking],
       some ⟨true,
         some ⟨"booking_100", "Inception", "Grand Cinema", "2024-06-01",
           "18:30", ["1-1", "1-2"], "Ada"⟩,
         "Check-in successful!"⟩)
    ∧ (checkInPatch "T0" freshBooking).checked_in = true
    ∧ (checkInPatch "T0" freshBooking).check_in_time = some "T0" := by
  have h := checkin_success_path checkinDb "QR_100_u1" "T0" freshBooking
    sampleShowtime (by decide) (by rfl) rfl rfl (by rfl)
  refine ⟨?_, h.2.1, h.2.2.1⟩
  rw [h.1]
  rfl

/-- Looking a code up after an update that does not touch `qr_code` finds
the patched first match. -/
theorem findBookingByQr_map (l : List Booking) (g : Booking → Booking)
    (hg : ∀ x, (g x).qr_code = x.qr_code) (code : String) :
    findBookingByQr (l.map g) code = (findBookingByQr l code).map g := by
  unfold findBookingByQr
  have hfe : l.filter ((fun b => b.qr_code == code) ∘ g) =
      l.filter (fun b => b.qr_code == code) := by
    apply List.filter_congr
    intro x _
    simp [Function.comp, hg x]
  rw [List.filter_map, hfe, List.head?_map]


/-- Equation for the success branch of `handleQRScan`: a matched, fresh,
confirmed booking with an existing showtime produces the patched store and
the enriched success result. -/
theorem handleQRScan_success_eq (db : CheckInDb) (code now : String)
    (b : Booking) (st : Showtime) (hne : jsTrim code ≠ "")
    (hfind : findBookingByQr db.bookings (jsTrim code) = some b)
    (hchk : b.checked_in = false)
    (hstat : b.booking_status = "confirmed")
    (hshow : lookupShowtime db.showtimes b.showtime_id = some st) :
    handleQRScan db code now =
      (db.bookings.map
        (fun x => if x.id == b.id then checkInPatch now x else x),
       some ⟨true,
         some ⟨b.id, movieTitleFor db.movies st.movie_id,
           theaterNameFor db.theaters st.theater_id, st.show_date,
           st.show_time, b.seats, userNameFor db.users b.user_id⟩,
         "Check-in successful!"⟩) := by
  unfold handleQRScan
  rw [if_neg hne, hfind]
  simp only [hchk, hstat, hshow, bne_self_eq_false, Bool.false_eq_true,
    if_false]

/-- Inversion: a scan producing a success result went down the success
branch — the code matched a fresh confirmed booking whose showtime exists. -/
theorem handleQRScan_success_inv (db : CheckInDb) (code now : String)
    (r : CheckInResult) (hne : jsTrim code ≠ "")
    (hr : (handleQRScan db code now).2 = some r) (hsucc : r.success = true) :
    ∃ b st, findBookingByQr db.bookings (jsTrim code) = some b
      ∧ b.checked_in = false ∧ b.booking_status = "confirmed"
      ∧ lookupShowtime db.showtimes b.showtime_id = some st := by
  cases hb : findBookingByQr db.bookings (jsTrim code) with
  | none =>
      have heq : handleQRScan db code now =
          (db.bookings,
           some ⟨false, none, "Invalid QR code. Booking not found."⟩) := by
        unfold handleQRScan
        rw [if_neg hne, hb]
      rw [heq] at hr
      have h := Option.some.inj hr
      rw [← h] at hsucc
      simp at hsucc
  | some b =>
      by_cases h1 : b.checked_in = true
      · have heq : handleQRScan db code now =
            (db.bookings,
             some ⟨false, none,
               "This ticket has already been used for check-in."⟩) := by
          unfold handleQRScan
          rw [if_neg hne, hb]
          simp [h1]
        rw [heq] at hr
        have h := Option.some.inj hr
        rw [← h] at hsucc
        simp at hsucc
      · have h1f : b.checked_in = false := by
          cases hc : b.checked_in
          · rfl
          · exact absurd hc h1
        by_cases h2 : b.booking_status = "confirmed"
        · cases hs : lookupShowtime db.showtimes b.showtime_id with
          | none =>
              have heq : handleQRScan db code now =
                  (db.bookings,
                   some ⟨false, none, "Showtime not found."⟩) := by
                unfold handleQRScan
                rw [if_neg hne, hb]
                simp [h1f, h2, hs]
              rw [heq] at hr
              have h := Option.some.inj hr
              rw [← h] at hsucc
              simp at hsucc
          | some st => exact ⟨b, st, rfl, h1f, h2, hs⟩
        · have heq : handleQRScan db code now =
              (db.bookings,
               some ⟨false, none, "This booking is not confirmed."⟩) := by
            unfold handleQRScan
            rw [if_neg hne, hb]
            have hb2 : (b.booking_status != "confirmed") = true := by
              simpa using h2
            simp [h1f, hb2]
          rw [heq] at hr
          have h := Option.some.inj hr
          rw [← h] at hsucc
          simp at hsucc

/-- C4: with a non-blank entered code, the scan fails with the
"Booking not found." message exactly when no booking matches the code
(conjuncts 1 and 2); a matched booking with the checked-in flag set fails
with the "already been used" message; a matched, unused booking whose
status is not `confirmed` fails with the "not confirmed" message; each of
these failures has `success := false` and leaves the store unchanged; and
after a successful scan, re-scanning the same code against the updated
store fails with the "already been used" message. -/
theorem checkin_failure_cases (db : CheckInDb) (code now now2 : String)
    (hne : jsTrim code ≠ "") :
    (findBookingByQr db.bookings (jsTrim code) = none →
      handleQRScan db code now =
        (db.bookings,
         some ⟨false, none, "Invalid QR code. Booking not found."⟩))
    ∧ (∀ b, findBookingByQr db.bookings (jsTrim code) = some b →
        (handleQRScan db code now).2 ≠
          some ⟨false, none, "Invalid QR code. Booking not found."⟩)
    ∧ (∀ b, findBookingByQr db.bookings (jsTrim code) = some b →
        b.checked_in = true →
        handleQRScan db code now =
          (db.bookings,
           some ⟨false, none,
             "This ticket has already been used for check-in."⟩))
    ∧ (∀ b, findBookingByQr db.bookings (jsTrim code) = some b →
        b.checked_in = false → b.booking_status ≠ "confirmed" →
        handleQRScan db code now =
          (db.bookings,
           some ⟨false, none, "This booking is not confirmed."⟩))
    ∧ (∀ r, (handleQRScan db code now).2 = some r → r.success = true →
        (handleQRScan { db with bookings := (handleQRScan db code now).1 }
            code now2).2 =
          some ⟨false, none,
            "This ticket has already been used for check-in."⟩) := by
  refine ⟨?_, ?_, ?_, ?_, ?_⟩
  · intro hnone
    unfold handleQRScan
    rw [if_neg hne, hnone]
  · intro b hb
    unfold handleQRScan
    rw [if_neg hne, hb]
    by_cases h1 : b.checked_in = true
    · simp [h1]
    · by_cases h2 : b.booking_status = "confirmed"
      · have h1f : b.checked_in = false := by
          cases hc : b.checked_in
          · rfl
          · exact absurd hc h1
        simp only [h1f, h2, bne_self_eq_false, Bool.false_eq_true, if_false]
        cases hs : lookupShowtime db.showtimes b.showtime_id <;> simp
      · have hb2 : (b.booking_status != "confirmed") = true := by
          simpa using h2
        simp [h1, hb2]
  · intro b hb hchk
    unfold handleQRScan
    rw [if_neg hne, hb]
    simp [hchk]
  · intro b hb hchk hstat
    unfold handleQRScan
    rw [if_neg hne, hb]
    have hb2 : (b.booking_status != "confirmed") = true := by simpa using hstat
    simp [hchk, hb2]
  · intro r hr hsucc
    obtain ⟨b, st, hb, hchk, hstat, hs⟩ :=
      handleQRScan_success_inv db code now r hne hr hsucc
    have hupd := handleQRScan_success_eq db code now b st hne hb hchk hstat hs
    have hqr : ∀ x,
        ((fun x => if x.id == b.id then checkInPatch now x else x) x).qr_code =
          x.qr_code := by
      intro x
      by_cases hx : x.id == b.id <;> simp [hx, checkInPatch]
    have hupd1 : (handleQRScan db code now).1 =
        db.bookings.map
          (fun x => if x.id == b.id then checkInPatch now x else x) := by
      rw [hupd]
    have hfind2 : findBookingByQr ((handleQRScan db code now).1)
        (jsTrim code) = some (checkInPatch now b) := by
      rw [hupd1, findBookingByQr_map _ _ hqr, hb]
      simp
    generalize hX : (handleQRScan db code now).1 = X at hfind2 ⊢
    unfold handleQRScan
    rw [if_neg hne]
    simp [hfind2, checkInPatch]

/-- A booking whose ticket was already used. -/
def usedBooking : Booking :=
  { id := "booking_101", user_id := "u1", showtime_id := "st1",
    seats := ["2-1"], total_amount := 400, booking_status := "confirmed",
    payment_status := "pending", qr_code := "QR_101_u1", checked_in := true,
    check_in_time := some "T0" }

/-- A cancelled booking. -/
def cancelledBooking : Booking :=
  { id := "booking_102", user_id := "u1", showtime_id := "st1",
    seats := ["3-1"], total_amount := 250, booking_status := "cancelled",
    payment_status := "pending", qr_code := "QR_102_u1",
    checked_in := false, check_in_time := none }

/-- Check-in store containing the used booking. -/
def usedDb : CheckInDb :=
  { bookings := [usedBooking], showtimes := [sampleShowtime], movies := [],
    theaters := [], users := [] }

/-- Check-in store containing the cancelled booking. -/
def cancelDb : CheckInDb :=
  { bookings := [cancelledBooking], showtimes := [sampleShowtime],
    movies := [], theaters := [], users := [] }

/-- Witness for C4: an unknown code is "not found", a used ticket is
"already been used", a cancelled booking is "not confirmed", and replaying
a successful code against the updated store is "already been used". -/
theorem checkin_failure_cases_witness :
    handleQRScan checkinDb "nope" "T1" =
      (checkinDb.bookings,
       some ⟨false, none, "Invalid QR code. Booking not found."⟩)
    ∧ handleQRScan usedDb "QR_101_u1" "T1" =
      (usedDb.bookings,
       some ⟨false, none, "This ticket has already been used for check-in."⟩)
    ∧ handleQRScan cancelDb "QR_102_u1" "T1" =
      (cancelDb.bookings,
       some ⟨false, none, "This booking is not confirmed."⟩)
    ∧ (handleQRScan
        { checkinDb with
          bookings := (handleQRScan checkinDb "QR_100_u1" "T1").1 }
        "QR_100_u1" "T2").2 =
      some ⟨false, none,
        "This ticket has already been used for check-in."⟩ := by
  have h1 := checkin_failure_cases checkinDb "nope" "T1" "T2" (by decide)
  have h2 := checkin_failure_cases usedDb "QR_101_u1" "T1" "T2" (by decide)
  have h3 := checkin_failure_cases cancelDb "QR_102_u1" "T1" "T2" (by decide)
  have h4 := checkin_failure_cases checkinDb "QR_100_u1" "T1" "T2" (by decide)
  refine ⟨h1.1 (by rfl), h2.2.2.1 usedBooking (by rfl) rfl,
    h3.2.2.2.1 cancelledBooking (by rfl) rfl (by decide),
    h4.2.2.2.2 ⟨true,
      some ⟨"booking_100", "Inception", "Grand Cinema", "2024-06-01",
        "18:30", ["1-1", "1-2"], "Ada"⟩,
      "Check-in successful!"⟩ (by rfl) rfl⟩

/-! ## Session bootstrap (`fetchUserDetails` in `App.tsx`) -/

/-- Local part of an email: `email.split('@')[0]`. -/
def localEmailPart (email : String) : String :=
  ⟨email.data.takeWhile (fun c => c != '@')⟩

/-- The user record created on first sign-in: role `customer`, name from
the display name or — when that is absent/empty — the local part of the
email. -/
def newAppUser (userId : String) (auth : AuthUser) : AppUser :=
  { id := userId
    email := auth.email
    name := if auth.displayName = "" then localEmailPart auth.email
      else auth.displayName
    role := "customer" }

/-- `fetchUserDetails`: look the application user up by id (`limit: 1`);
when found it becomes the session user and nothing is written; when absent
a new `customer` record is created and becomes the session user.  Returns
(session user, updated users store). -/
def fetchUserDetails (db : List AppUser) (userId : String)
    (auth : AuthUser) : Option AppUser × List AppUser :=
  match (db.filter (fun u => u.id == userId)).head? with
  | some u => (some u, db)
  | none => (some (newAppUser userId auth), db ++ [newAppUser userId auth])

/-- C7: when a user record with the principal's id exists, the store is
unchanged (no duplicate) and the first matching record becomes the session
user; when none exists, exactly one record is created — role `customer`,
name defaulted from the display name or the email's local part — it becomes
the session user, and afterwards exactly one record matches the id. -/
theorem session_bootstrap_user_creation (db : List AppUser)
    (userId : String) (auth : AuthUser) :
    ((∃ u ∈ db, u.id = userId) →
      (fetchUserDetails db userId auth).2 = db
      ∧ (fetchUserDetails db userId auth).1 =
          (db.filter (fun u => u.id == userId)).head?)
    ∧ (¬ (∃ u ∈ db, u.id = userId) →
      (fetchUserDetails db userId auth).2 = db ++ [newAppUser userId auth]
      ∧ (newAppUser userId auth).role = "customer"
      ∧ (newAppUser userId auth).name =
          (if auth.displayName = "" then localEmailPart auth.email
            else auth.displayName)
      ∧ (fetchUserDetails db userId auth).1 = some (newAppUser userId auth)
      ∧ ((fetchUserDetails db userId auth).2.filter
          (fun u => u.id == userId)).length = 1) := by
  have hiff : (db.filter (fun u => u.id == userId)) = [] ↔
      ¬ ∃ u ∈ db, u.id = userId := by
    rw [List.filter_eq_nil_iff]
    simp
  constructor
  · intro hex
    have hne : (db.filter (fun u => u.id == userId)) ≠ [] := by
      intro hnil
      exact (hiff.mp hnil) hex
    cases hh : (db.filter (fun u => u.id == userId)).head? with
    | none => exact absurd (List.head?_eq_none_iff.mp hh) hne
    | some u =>
        constructor
        · simp only [fetchUserDetails, hh]
        · simp only [fetchUserDetails, hh]
  · intro hnex
    have hnil : (db.filter (fun u => u.id == userId)) = [] := hiff.mpr hnex
    have hh : (db.filter (fun u => u.id == userId)).head? = none :=
      List.head?_eq_none_iff.mpr hnil
    refine ⟨?_, rfl, rfl, ?_, ?_⟩
    · simp only [fetchUserDetails, hh]
    · simp only [fetchUserDetails, hh]
    · simp only [fetchUserDetails, hh]
      rw [List.filter_append, hnil]
      simp [newAppUser]

/-- Witness for C7: a store owning `u1` is left unchanged; for an unknown
principal `u9` exactly one `customer` record is created with the name
defaulted from the email's local part. -/
theorem session_bootstrap_user_creation_witness :
    (fetchUserDetails [⟨"u1", "ada@example.com", "Ada", "customer"⟩] "u1"
        ⟨"u1", "ada@example.com", "Ada"⟩).2 =
      [⟨"u1", "ada@example.com", "Ada", "customer"⟩]
    ∧ (fetchUserDetails [] "u9" ⟨"u9", "bob@example.com", ""⟩).2 =
      [newAppUser "u9" ⟨"u9", "bob@example.com", ""⟩]
    ∧ (newAppUser "u9" ⟨"u9", "bob@example.com", ""⟩).role = "customer"
    ∧ (newAppUser "u9" ⟨"u9", "bob@example.com", ""⟩).name = "bob"
    ∧ ((fetchUserDetails [] "u9" ⟨"u9", "bob@example.com", ""⟩).2.filter
        (fun u => u.id == "u9")).length = 1 := by
  have h1 := session_bootstrap_user_creation
    [⟨"u1", "ada@example.com", "Ada", "customer"⟩] "u1"
    ⟨"u1", "ada@example.com", "Ada"⟩
  have h2 := session_bootstrap_user_creation [] "u9"
    ⟨"u9", "bob@example.com", ""⟩
  have g1 := h1.1 ⟨⟨"u1", "ada@example.com", "Ada", "customer"⟩, by decide⟩
  have g2 := h2.2 (by simp)
  exact ⟨g1.1, by simpa using g2.1, g2.2.1, by decide, g2.2.2.2.2⟩

/-! ## Platform dashboard: theater approval (`PlatformDashboard.tsx`) -/

/-- Gateway `theaters.update(theaterId, { status })`: set `status` on the
records with the matching id, touching nothing else. -/
def updateTheaterStatus (db : List Theater) (theaterId status : String) :
    List Theater :=
  db.map (fun t => if t.id == theaterId then { t with status := status } else t)

/-- `list({ where: { status: 'pending' } })` in `fetchDashboardStats`. -/
def fetchPendingTheaters (db : List Theater) : List Theater :=
  db.filter (fun t => t.status == "pending")

/-- `handleTheaterApproval`: update the theater's status, then refresh the
pending list from the updated store. -/
def handleTheaterApproval (db : List Theater) (theaterId status : String) :
    List Theater × List Theater :=
  (updateTheaterStatus db theaterId status,
   fetchPendingTheaters (updateTheaterStatus db theaterId status))

/-- C8: the approval action sets the target theater's status to the given
value (`approved`/`rejected`) while every other field — and every other
theater — is untouched; the refreshed pending list is exactly the
`status = 'pending'` filter of the updated store; and a theater just set to
`approved` (or `rejected`) no longer appears in the pending list. -/
theorem theater_approval_updates_pending (db : List Theater)
    (tid s : String) (hs : s = "approved" ∨ s = "rejected") :
    (∀ t ∈ db, t.id = tid →
      ({ t with status := s } : Theater) ∈ (handleTheaterApproval db tid s).1)
    ∧ (∀ t ∈ db, t.id ≠ tid → t ∈ (handleTheaterApproval db tid s).1)
    ∧ (handleTheaterApproval db tid s).2 =
        fetchPendingTheaters (handleTheaterApproval db tid s).1
    ∧ (∀ t ∈ (handleTheaterApproval db tid s).2,
        t.id ≠ tid ∧ t.status = "pending") := by
  have hsp : s ≠ "pending" := by
    rcases hs with h | h <;> rw [h] <;> decide
  refine ⟨?_, ?_, rfl, ?_⟩
  · intro t ht hid
    exact List.mem_map.mpr ⟨t, ht, by simp [hid]⟩
  · intro t ht hid
    exact List.mem_map.mpr ⟨t, ht, by simp [hid]⟩
  · intro t ht
    have ht2 := List.mem_filter.mp ht
    obtain ⟨x, hx, hfx⟩ := List.mem_map.mp ht2.1
    have hstat : t.status = "pending" := by
      simpa using ht2.2
    by_cases hid : x.id = tid
    · exfalso
      rw [if_pos (by simp [hid])] at hfx
      rw [← hfx] at hstat
      exact hsp hstat
    · rw [if_neg (by simp [hid])] at hfx
      subst hfx
      exact ⟨hid, hstat⟩

/-- A pending theater awaiting approval. -/
def pendingTheater : Theater :=
  ⟨"t9", "New Palace", "5th Ave", "Metropolis", "pending"⟩

/-- Witness for C8: approving the concrete pending theater updates its
status, leaves the other fields intact and empties the pending list. -/
theorem theater_approval_updates_pending_witness :
    ({ pendingTheater with status := "approved" } : Theater) ∈
      (handleTheaterApproval [pendingTheater] "t9" "approved").1
    ∧ (handleTheaterApproval [pendingTheater] "t9" "approved").2 =
        fetchPendingTheaters
          (handleTheaterApproval [pendingTheater] "t9" "approved").1
    ∧ (handleTheaterApproval [pendingTheater] "t9" "approved").2 = [] := by
  have h := theater_approval_updates_pending [pendingTheater] "t9"
    "approved" (Or.inl rfl)
  exact ⟨h.1 pendingTheater (by decide) rfl, h.2.2.1, by decide⟩

/-! ## Catalog browser (`filteredMovies` in `HomePage.tsx`) -/

/-- Leading-match test: the first list starts the second. -/
def leadsWith : List Char → List Char → Bool
  | [], _ => true
  | _ :: _, [] => false
  | c :: cs, d :: ds => c == d && leadsWith cs ds

/-- Substring test over character lists (JS `String.prototype.includes`):
the needle occurs contiguously somewhere in the haystack. -/
def subOf (needle : List Char) : List Char → Bool
  | [] => needle.isEmpty
  | d :: ds => leadsWith needle (d :: ds) || subOf needle ds

/-- `hay.includes(needle)` on strings. -/
def stringIncludes (hay needle : String) : Bool :=
  subOf needle.data hay.data

/-- `toLowerCase`, modelled on the character list so it evaluates in the
kernel. -/
def jsToLower (s : String) : String :=
  ⟨s.data.map Char.toLower⟩

/-- `filteredMovies` from `HomePage.tsx`: keep movies whose lowercased
title contains the lowercased search query and that match the selected
language and genre exactly (an empty selection matches everything).  The
component also holds a `selectedCity` state — passed here for fidelity —
but the filter predicate never reads it. -/
def filteredMovies (movies : List Movie)
    (searchQuery selectedLanguage selectedGenre selectedCity : String) :
    List Movie :=
  movies.filter (fun movie =>
    stringIncludes (jsToLower movie.title) (jsToLower searchQuery)
    && (selectedLanguage == "" || movie.language == selectedLanguage)
    && (selectedGenre == "" || movie.genre == selectedGenre))

/-- `nowShowingMovies`: the `now_showing` part of the filtered list. -/
def nowShowingMovies (movies : List Movie)
    (searchQuery selectedLanguage selectedGenre selectedCity : String) :
    List Movie :=
  (filteredMovies movies searchQuery selectedLanguage selectedGenre
    selectedCity).filter (fun movie => movie.status == "now_showing")

/-- `comingSoonMovies`: the `coming_soon` part of the filtered list. -/
def comingSoonMovies (movies : List Movie)
    (searchQuery selectedLanguage selectedGenre selectedCity : String) :
    List Movie :=
  (filteredMovies movies searchQuery selectedLanguage selectedGenre
    selectedCity).filter (fun movie => movie.status == "coming_soon")

/-- A catalog movie with no attribute equal to either sample city. -/
def sampleMovie : Movie :=
  ⟨"m2", "Inception", "English", "Sci-Fi", "now_showing"⟩

/-- C9 counterexample: the city filter has no effect on movie filtering.
With two *different* selected cities, the same movie passes both filters
unchanged — under the claim a selected city filter requires an exact match,
and one movie cannot exactly match both "Metropolis" and "Gotham", so at
least one of these results keeps a movie the claim says must be dropped. -/
theorem city_filter_has_no_effect :
    filteredMovies [sampleMovie] "" "" "" "Metropolis" = [sampleMovie]
    ∧ filteredMovies [sampleMovie] "" "" "" "Gotham" = [sampleMovie]
    ∧ "Metropolis" ≠ "Gotham" := by
  exact ⟨rfl, rfl, by decide⟩

/-- C9 (amended): a movie is kept exactly when its title contains the
search query case-insensitively and it matches the selected language and
genre exactly (an empty selection matches everything); the selected city
has no effect on the movie filter; and the filtered list is partitioned
into now-showing / coming-soon purely by the `status` field. -/
theorem movie_filtering_characterization (movies : List Movie)
    (q lang genre city city2 : String) (m : Movie) :
    (m ∈ filteredMovies movies q lang genre city ↔
      m ∈ movies
      ∧ stringIncludes (jsToLower m.title) (jsToLower q) = true
      ∧ (lang = "" ∨ m.language = lang)
      ∧ (genre = "" ∨ m.genre = genre))
    ∧ filteredMovies movies q lang genre city =
        filteredMovies movies q lang genre city2
    ∧ (m ∈ nowShowingMovies movies q lang genre city ↔
        m ∈ filteredMovies movies q lang genre city
        ∧ m.status = "now_showing")
    ∧ (m ∈ comingSoonMovies movies q lang genre city ↔
        m ∈ filteredMovies movies q lang genre city
        ∧ m.status = "coming_soon") := by
  refine ⟨?_, rfl, ?_, ?_⟩
  · unfold filteredMovies
    rw [List.mem_filter]
    simp [Bool.and_eq_true, Bool.or_eq_true, and_assoc]
  · unfold nowShowingMovies
    rw [List.mem_filter]
    simp
  · unfold comingSoonMovies
    rw [List.mem_filter]
    simp
